import Mathlib

/-!
Shallow embedding of `stream.go` from hybridgroup/mjpeg.

Conventions of the embedding:
* Go `[]byte` is `List Nat` (byte values; the header text is ASCII, one
  byte per character, so `Char.toNat` is its byte encoding).
* Go `time.Duration` is a `Nat` counting nanoseconds (the claims quantify
  over non-negative elapsed durations).  `int64(elapsed.Seconds())`
  truncates toward zero, which for a non-negative duration is
  `ns / 1000000000`; `elapsed.Microseconds()` is `ns / 1000`.
* Go `fmt.Sprintf` on the fixed format `headerf` (whose only verbs are
  `%d` applied to non-negative integers) is modelled by `substPercentD`,
  which replaces each `%d` in the format with the decimal numeral of the
  next argument.
* Go `copy(dst, src)` copies `min (len src) (len dst)` bytes into the
  front of `dst` and leaves the rest of `dst` unchanged: `goCopy`.
* Go `time.Time` is `Option Nat`: `none` is the zero value the `start`
  field holds before any assignment, `some t` a recorded instant.
* A Go channel is `GoChan`: a capacity, a buffer of pending values, and
  whether a receiver is currently blocked on the channel; `trySend` is a
  `select`-with-`default` send (succeed by rendezvous with a blocked
  receiver, else by buffering if there is room, else drop).
-/

namespace Mjpeg

/-- The format string `headerf` of stream.go (boundaryWord spliced in). -/
def headerf : String :=
  "\r\n--MJPEGBOUNDARY\r\nContent-Type: image/jpeg\r\nContent-Length: %d\r\nX-Timestamp: %d.%d\r\n\r\n"

/-- `fmt.Sprintf` restricted to formats whose only verbs are `%d` with
non-negative integer arguments: each `%d` is replaced by the decimal
numeral of the next argument, every other character is copied through. -/
def substPercentD : List Char → List Nat → List Char
  | '%' :: 'd' :: rest, a :: args => (Nat.repr a).data ++ substPercentD rest args
  | c :: rest, args => c :: substPercentD rest args
  | [], _ => []

/-- `frameHeader` of stream.go: seconds are the elapsed nanoseconds
truncated to seconds, microseconds are the elapsed microseconds modulo
one million, and the result is `Sprintf(headerf, len(jpeg), sec, usec)`. -/
def frameHeader (jpeg : List Nat) (elapsedNs : Nat) : String :=
  let sec := elapsedNs / 1000000000
  let usec := (elapsedNs / 1000) % 1000000
  String.mk (substPercentD headerf.data [jpeg.length, sec, usec])

/-- The bytes of the frame header (ASCII, one byte per character). -/
def headerBytes (jpeg : List Nat) (elapsedNs : Nat) : List Nat :=
  (frameHeader jpeg elapsedNs).data.map Char.toNat

/-- Go `copy(dst, src)`: the first `min (len src) (len dst)` bytes of
`dst` are replaced by the corresponding bytes of `src`; the length of
`dst` is unchanged. -/
def goCopy (dst src : List Nat) : List Nat :=
  src.take dst.length ++ dst.drop (min src.length dst.length)

/-- The two copies of `updateFrame`:
`copy(s.frame, header)` then `copy(s.frame[len(header):], jpeg)`. -/
def writeFrame (f header jpeg : List Nat) : List Nat :=
  let f1 := goCopy f header
  f1.take header.length ++ goCopy (f1.drop header.length) jpeg

/-- The resize step of `updateFrame`: when the current frame buffer is
shorter than `len(jpeg)+len(header)` it is replaced by a fresh
zero-filled buffer of length `(len(jpeg)+len(header))*2`. -/
def grownBuffer (frame jpeg : List Nat) (elapsedNs : Nat) : List Nat :=
  if frame.length < jpeg.length + (headerBytes jpeg elapsedNs).length then
    List.replicate ((jpeg.length + (headerBytes jpeg elapsedNs).length) * 2) 0
  else frame

/-- `updateFrame` of stream.go acting on the frame buffer. -/
def updateFrame (frame jpeg : List Nat) (elapsedNs : Nat) : List Nat :=
  writeFrame (grownBuffer frame jpeg elapsedNs) (headerBytes jpeg elapsedNs) jpeg

/-- A Go channel: `cap` is its buffer capacity, `buf` the pending values
(oldest first, `buf.length ≤ cap`), `recvWaiting` whether a receiver is
currently blocked on the channel, and `handed` the value transferred to
such a receiver at a rendezvous. -/
structure GoChan (α : Type) where
  cap : Nat
  buf : List α
  recvWaiting : Bool
  handed : Option α
deriving DecidableEq, Repr

/-- `c := make(chan []byte)` in `ServeHTTP`: a channel with no capacity
argument is unbuffered. -/
def newSubscriberChan : GoChan (List Nat) :=
  { cap := 0, buf := [], recvWaiting := false, handed := none }

/-- A `select { case c <- v: default: }` send: it succeeds by handing the
value to a blocked receiver, else by appending to the buffer when there
is room, and otherwise does nothing and reports failure. -/
def trySend {α : Type} (c : GoChan α) (v : α) : GoChan α × Bool :=
  if c.recvWaiting then ({ c with recvWaiting := false, handed := some v }, true)
  else if c.buf.length < c.cap then ({ c with buf := c.buf ++ [v] }, true)
  else (c, false)

/-- The broadcaster state of `Stream`: the recorded start time (`none`
until first assigned), the registry of subscriber channels, and the
shared frame buffer. -/
structure StreamM where
  start : Option Nat
  subs : List (GoChan (List Nat))
  frame : List Nat
deriving DecidableEq, Repr

/-- `NewStream`: empty registry, frame buffer of `len(headerf)` zero
bytes, start time not set. -/
def newStream : StreamM :=
  { start := none, subs := [], frame := List.replicate headerf.length 0 }

/-- The broadcaster-state effect of one `ServeHTTP` attach at instant
`now`: register a fresh unbuffered channel and assign `s.start = now`. -/
def serveHTTPAttach (s : StreamM) (now : Nat) : StreamM :=
  { s with subs := s.subs ++ [newSubscriberChan], start := some now }

/-- `UpdateJPEG` at instant `now`: an empty payload returns at once;
otherwise the frame buffer is rebuilt with the elapsed time since
`s.start` and a non-blocking send of the buffer is attempted on every
registered channel. -/
def updateJPEG (s : StreamM) (jpeg : List Nat) (now : Nat) : StreamM :=
  if jpeg.length = 0 then s
  else
    let elapsed := now - (s.start.getD 0)
    let frame := updateFrame s.frame jpeg elapsed
    { s with frame := frame, subs := s.subs.map (fun c => (trySend c frame).1) }

/-- `delete(s.m, c)` on the registry viewed as the set of its keys. -/
def unsubscribe (m : Finset Nat) (c : Nat) : Finset Nat := m.erase c

/-- The frame-buffer heap: `store` is the list of byte buffers allocated
so far, `frameId` the index of the buffer the `frame` slice currently
points at.  This refines `updateFrame` to make aliasing observable: a
subscriber holds an index into `store`, and an in-place rebuild changes
the bytes behind every outstanding index. -/
structure HeapStream where
  store : List (List Nat)
  frameId : Nat
deriving DecidableEq, Repr

/-- `updateFrame` on the heap view: when the current buffer is too small
a fresh buffer is allocated (a new `store` entry, a new `frameId`) and
written; otherwise the buffer at `frameId` is overwritten in place. -/
def heapUpdateFrame (st : HeapStream) (jpeg : List Nat) (ns : Nat) : HeapStream :=
  let frame := st.store.getD st.frameId []
  let header := headerBytes jpeg ns
  if frame.length < jpeg.length + header.length then
    { store := st.store ++
        [writeFrame (List.replicate ((jpeg.length + header.length) * 2) 0) header jpeg],
      frameId := st.store.length }
  else
    { store := st.store.set st.frameId (writeFrame frame header jpeg),
      frameId := st.frameId }

/-- A sequence of `UpdateJPEG` calls, each a payload and a call instant. -/
def runPublishes (ops : List (List Nat × Nat)) (s : StreamM) : StreamM :=
  ops.foldl (fun s p => updateJPEG s p.1 p.2) s

/-- The spec's rendering of the microseconds field: the decimal numeral
zero-padded on the left to six digits. -/
def zeroPad6 (u : Nat) : String :=
  String.mk (List.replicate (6 - (Nat.repr u).length) '0') ++ Nat.repr u

/-- The header text exactly as the spec's words describe it, with the
microseconds field zero-padded to six digits. -/
def specClaimHeader (L S U : Nat) : String :=
  "\r\n--MJPEGBOUNDARY\r\nContent-Type: image/jpeg\r\nContent-Length: " ++ Nat.repr L ++
  "\r\nX-Timestamp: " ++ Nat.repr S ++ "." ++ zeroPad6 U ++ "\r\n\r\n"

/-- The header text with every numeric field printed as a plain decimal
numeral, the microseconds field not padded. -/
def specHeaderText (L S U : Nat) : String :=
  "\r\n--MJPEGBOUNDARY\r\nContent-Type: image/jpeg\r\nContent-Length: " ++ Nat.repr L ++
  "\r\nX-Timestamp: " ++ Nat.repr S ++ "." ++ Nat.repr U ++ "\r\n\r\n"

/-- Replacing one character that is not `%` copies it through. -/
lemma substPercentD_cons_of_ne (c : Char) (fmt : List Char) (args : List Nat)
    (h : c ≠ '%') :
    substPercentD (c :: fmt) args = c :: substPercentD fmt args := by
  rw [substPercentD.eq_def]
  split <;> simp_all

/-- A verb-free prefix of the format is copied through verbatim. -/
lemma substPercentD_append (fmt1 fmt2 : List Char) (args : List Nat)
    (h : '%' ∉ fmt1) :
    substPercentD (fmt1 ++ fmt2) args = fmt1 ++ substPercentD fmt2 args := by
  induction fmt1 with
  | nil => rfl
  | cons c cs ih =>
    rw [List.cons_append,
      substPercentD_cons_of_ne c _ _ (fun hc => h (hc ▸ List.mem_cons_self c cs)),
      ih (fun hm => h (List.mem_cons_of_mem c hm)), List.cons_append]

/-- A `%d` verb consumes one argument and emits its decimal numeral. -/
lemma substPercentD_pd (rest : List Char) (a : Nat) (args : List Nat) :
    substPercentD ('%' :: 'd' :: rest) (a :: args)
      = (Nat.repr a).data ++ substPercentD rest args := rfl

/-- `headerf` split at its three `%d` verbs. -/
lemma headerf_data_split :
    headerf.data =
      ("\r\n--MJPEGBOUNDARY\r\nContent-Type: image/jpeg\r\nContent-Length: " : String).data
      ++ '%' :: 'd' :: (("\r\nX-Timestamp: " : String).data
      ++ '%' :: 'd' :: (("." : String).data
      ++ '%' :: 'd' :: ("\r\n\r\n" : String).data)) := by rfl

/-- `copy` leaves the length of the destination unchanged. -/
lemma goCopy_length (dst src : List Nat) : (goCopy dst src).length = dst.length := by
  simp only [goCopy, List.length_append, List.length_take, List.length_drop]
  omega

/-- When the source fits, `copy` replaces exactly the source-length
front of the destination. -/
lemma goCopy_of_le (dst src : List Nat) (h : src.length ≤ dst.length) :
    goCopy dst src = src ++ dst.drop src.length := by
  rw [goCopy, List.take_of_length_le h, Nat.min_eq_left h]

/-- The two copies of `updateFrame` leave the buffer length unchanged. -/
lemma writeFrame_length (f header jpeg : List Nat) :
    (writeFrame f header jpeg).length = f.length := by
  simp only [writeFrame, List.length_append, List.length_take, goCopy_length,
    List.length_drop]
  omega

/-- When header and payload fit, the rebuilt buffer is the header, the
payload, and then whatever bytes of the old buffer lie beyond them. -/
lemma writeFrame_eq (f header jpeg : List Nat) (h : header.length + jpeg.length ≤ f.length) :
    writeFrame f header jpeg = header ++ jpeg ++ f.drop (header.length + jpeg.length) := by
  have h1 : header.length ≤ f.length := by omega
  rw [writeFrame, goCopy_of_le f header h1, List.take_left, List.drop_left,
    goCopy_of_le (f.drop header.length) jpeg (by rw [List.length_drop]; omega),
    List.drop_drop, List.append_assoc]

/-- After the resize step the buffer always fits header plus payload. -/
lemma grownBuffer_le (frame jpeg : List Nat) (ns : Nat) :
    jpeg.length + (headerBytes jpeg ns).length ≤ (grownBuffer frame jpeg ns).length := by
  rw [grownBuffer]
  split
  · rw [List.length_replicate]; omega
  · omega

/-- The rebuilt frame buffer in closed form. -/
lemma updateFrame_eq (frame jpeg : List Nat) (ns : Nat) :
    updateFrame frame jpeg ns = headerBytes jpeg ns ++ jpeg ++
      (grownBuffer frame jpeg ns).drop ((headerBytes jpeg ns).length + jpeg.length) := by
  rw [updateFrame, writeFrame_eq]
  have := grownBuffer_le frame jpeg ns
  omega

/-- The rebuilt frame buffer has the length of the resized storage. -/
lemma updateFrame_length (frame jpeg : List Nat) (ns : Nat) :
    (updateFrame frame jpeg ns).length = (grownBuffer frame jpeg ns).length := by
  rw [updateFrame, writeFrame_length]

/-- One publish never shrinks the frame buffer. -/
lemma updateJPEG_frame_length_mono (s : StreamM) (j : List Nat) (t : Nat) :
    s.frame.length ≤ (updateJPEG s j t).frame.length := by
  rw [updateJPEG]
  split
  · exact Nat.le_refl _
  · simp only
    rw [updateFrame_length, grownBuffer]
    split
    · rw [List.length_replicate]; omega
    · exact Nat.le_refl _

/-- A run of publishes never shrinks the frame buffer. -/
lemma runPublishes_frame_length_mono (ops : List (List Nat × Nat)) (s : StreamM) :
    s.frame.length ≤ (runPublishes ops s).frame.length := by
  induction ops generalizing s with
  | nil => exact Nat.le_refl _
  | cons p rest ih =>
    exact Nat.le_trans (updateJPEG_frame_length_mono s p.1 p.2) (ih _)

/-- A non-empty publish leaves the buffer at least as long as the frame
it just built. -/
lemma updateJPEG_frame_length_ge (s : StreamM) (j : List Nat) (t : Nat) (hj : j ≠ []) :
    j.length + (headerBytes j (t - s.start.getD 0)).length
      ≤ (updateJPEG s j t).frame.length := by
  rw [updateJPEG, if_neg (by simpa using hj)]
  simp only
  rw [updateFrame_length]
  exact grownBuffer_le s.frame j (t - s.start.getD 0)

/-- The header the repository's own test expects, reproduced by the
embedding: payload length 10, elapsed 15535 ms. -/
theorem frameHeader_matches_go_test :
    frameHeader (List.replicate 10 0) (15535 * 1000000)
      = "\r\n--MJPEGBOUNDARY\r\nContent-Type: image/jpeg\r\nContent-Length: 10\r\nX-Timestamp: 15.535000\r\n\r\n" := by
  decide

set_option maxRecDepth 4000 in
/-- C1 (counterexample): publishing the one-byte payload `[1]` into the
buffer allocated by `NewStream` reuses the 87-byte storage, so the frame
handed to subscribers is 87 bytes long while `header ++ jpeg` is only 85
bytes: the frame is not `header ++ jpeg` and nothing else. -/
theorem updateFrame_ne_header_append_jpeg :
    (updateFrame newStream.frame [1] 0).length = 87 ∧
    (headerBytes [1] 0 ++ [1]).length = 85 ∧
    updateFrame newStream.frame [1] 0 ≠ headerBytes [1] 0 ++ [1] := by decide

/-- C1 (amended): on every publish the frame buffer is exactly
`header ++ jpeg` followed by the bytes of the reused (or freshly grown)
storage beyond position `len(header)+len(jpeg)`; only its first
`len(header)+len(jpeg)` bytes are guaranteed to be `header ++ jpeg`. -/
theorem updateFrame_content (frame jpeg : List Nat) (ns : Nat) :
    updateFrame frame jpeg ns
      = headerBytes jpeg ns ++ jpeg ++
        (grownBuffer frame jpeg ns).drop ((headerBytes jpeg ns).length + jpeg.length)
  ∧ (updateFrame frame jpeg ns).take ((headerBytes jpeg ns).length + jpeg.length)
      = headerBytes jpeg ns ++ jpeg := by
  refine ⟨updateFrame_eq frame jpeg ns, ?_⟩
  rw [updateFrame_eq, List.take_left' (by rw [List.length_append])]

/-- C2 (counterexample): at elapsed time 535 microseconds the claimed
text has `X-Timestamp: 0.000535` but `frameHeader` prints the
microseconds with no zero-padding, producing `X-Timestamp: 0.535`. -/
theorem frameHeader_not_zero_padded :
    (535000 : Nat) / 1000000000 = 0 ∧ ((535000 : Nat) / 1000) % 1000000 = 535 ∧
    frameHeader (List.replicate 10 0) 535000 ≠ specClaimHeader 10 0 535 := by decide

/-- C2 (amended): for every payload and elapsed duration, with seconds
`S` the elapsed nanoseconds truncated to seconds and microseconds `U`
the elapsed microseconds modulo one million, the header is exactly the
claimed text except that `U` is printed as a plain decimal numeral with
no zero-padding. -/
theorem frameHeader_eq_spec_text (jpeg : List Nat) (ns : Nat) :
    frameHeader jpeg ns
      = specHeaderText jpeg.length (ns / 1000000000) ((ns / 1000) % 1000000) := by
  apply String.ext
  show substPercentD headerf.data [jpeg.length, ns / 1000000000, (ns / 1000) % 1000000]
      = (specHeaderText jpeg.length (ns / 1000000000) ((ns / 1000) % 1000000)).data
  rw [headerf_data_split]
  rw [substPercentD_append _ _ _ (by decide), substPercentD_pd,
    substPercentD_append _ _ _ (by decide), substPercentD_pd,
    substPercentD_append _ _ _ (by decide), substPercentD_pd]
  simp [specHeaderText, String.data_append]
  decide

/-- C3 (counterexample): the channel created by `ServeHTTP` is
unbuffered, so a publish while the subscriber's slot is empty (and no
receiver is blocked) does not deposit the frame for a later receive: the
send fails and the channel is left unchanged. -/
theorem subscriber_chan_not_capacity_one :
    newSubscriberChan.cap = 0 ∧
    (trySend newSubscriberChan [1]).2 = false ∧
    (trySend newSubscriberChan [1]).1 = newSubscriberChan := by decide

/-- C3 (amended): subscriber channels are unbuffered (capacity zero): a
frame is never left pending in the channel, and a non-blocking send
succeeds exactly when a receiver is currently blocked on the channel. -/
theorem subscriber_chan_unbuffered (c : GoChan (List Nat)) (v : List Nat)
    (hcap : c.cap = 0) (hbuf : c.buf = []) :
    ((trySend c v).2 = c.recvWaiting) ∧ (trySend c v).1.buf = [] ∧
    newSubscriberChan.cap = 0 := by
  cases hrw : c.recvWaiting <;> simp [trySend, hcap, hbuf, hrw, newSubscriberChan]

/-- C3 (witness): the amended statement at a freshly subscribed
channel and payload `[5]`. -/
theorem subscriber_chan_unbuffered_witness :
    ((trySend newSubscriberChan [5]).2 = newSubscriberChan.recvWaiting) ∧
    (trySend newSubscriberChan [5]).1.buf = [] ∧ newSubscriberChan.cap = 0 :=
  subscriber_chan_unbuffered newSubscriberChan [5] rfl rfl

/-- C4 (counterexample): attaching a second consumer at instant 9 after
a first at instant 5 changes the recorded start time, so the start time
is not left unchanged by attaches after the first. -/
theorem start_reset_on_second_attach :
    (serveHTTPAttach (serveHTTPAttach newStream 5) 9).start
      ≠ (serveHTTPAttach newStream 5).start := by decide

/-- C4 (amended): every consumer attach overwrites the recorded start
time with the attach instant, and construction leaves it unset. -/
theorem attach_sets_start (s : StreamM) (now : Nat) :
    (serveHTTPAttach s now).start = some now ∧ newStream.start = none :=
  ⟨rfl, rfl⟩

/-- C5: publishing an empty payload is a no-op: the broadcaster state —
frame buffer, start time, and every subscriber channel — is unchanged,
so no subscriber can receive anything from the call. -/
theorem updateJPEG_empty_noop (s : StreamM) (now : Nat) : updateJPEG s [] now = s := rfl

/-- C6: when the buffer is shorter than `len(jpeg)+len(header)` it is
grown to exactly twice that (hence at least twice); otherwise storage is
reused and the buffer length is unchanged. -/
theorem updateFrame_growth_policy (frame jpeg : List Nat) (ns : Nat) :
    (frame.length < jpeg.length + (headerBytes jpeg ns).length →
      (updateFrame frame jpeg ns).length
        = 2 * (jpeg.length + (headerBytes jpeg ns).length))
  ∧ (jpeg.length + (headerBytes jpeg ns).length ≤ frame.length →
      (updateFrame frame jpeg ns).length = frame.length) := by
  rw [updateFrame_length, grownBuffer]
  split
  · exact ⟨fun _ => by rw [List.length_replicate]; omega, fun h => by omega⟩
  · exact ⟨fun h => by omega, fun _ => rfl⟩

/-- C6 (witness): publishing `[1]` into an empty buffer grows it to
twice `len(jpeg)+len(header)`. -/
theorem updateFrame_growth_policy_witness :
    (updateFrame ([] : List Nat) [1] 0).length
      = 2 * (([1] : List Nat).length + (headerBytes [1] 0).length) :=
  (updateFrame_growth_policy [] [1] 0).1 (by decide)

/-- C7: unsubscribe is idempotent — removing an absent handle changes
nothing, removing twice equals removing once — and removing a handle
removes exactly that handle, leaving membership of every other handle
untouched. -/
theorem unsubscribe_idempotent (m : Finset Nat) (c : Nat) :
    (c ∉ m → unsubscribe m c = m)
  ∧ unsubscribe (unsubscribe m c) c = unsubscribe m c
  ∧ c ∉ unsubscribe m c
  ∧ ∀ x, x ≠ c → (x ∈ unsubscribe m c ↔ x ∈ m) := by
  refine ⟨Finset.erase_eq_of_not_mem, Finset.erase_idem, Finset.not_mem_erase c m, ?_⟩
  intro x hx
  simp [unsubscribe, Finset.mem_erase, hx]

/-- C7 (witness): removing the absent handle 3 from the registry
`{1, 2}` is a no-op, and 2 stays a member. -/
theorem unsubscribe_idempotent_witness :
    unsubscribe {1, 2} 3 = {1, 2}
  ∧ (2 ∈ unsubscribe {1, 2} 3 ↔ 2 ∈ ({1, 2} : Finset Nat)) :=
  ⟨(unsubscribe_idempotent {1, 2} 3).1 (by decide),
   (unsubscribe_idempotent {1, 2} 3).2.2.2 2 (by decide)⟩

set_option maxRecDepth 8000 in
/-- C8 (counterexample): publish k writes `[9]` into the `NewStream`
buffer in place and hands out a reference to it; publish k+1 fits in the
same storage and overwrites it in place, so the bytes behind the handed
reference after publish k+1 differ from the bytes publish k built. -/
theorem handed_frame_mutated_on_reuse :
    (heapUpdateFrame (heapUpdateFrame ⟨[List.replicate headerf.length 0], 0⟩ [9] 0) [7] 0).store.getD
        (heapUpdateFrame ⟨[List.replicate headerf.length 0], 0⟩ [9] 0).frameId []
      ≠ (heapUpdateFrame ⟨[List.replicate headerf.length 0], 0⟩ [9] 0).store.getD
        (heapUpdateFrame ⟨[List.replicate headerf.length 0], 0⟩ [9] 0).frameId [] := by decide

/-- C8 (amended): a handed-out frame reference keeps the bytes of the
publish that built it only when the next publish needs a larger buffer
and therefore allocates fresh storage instead of rebuilding in place. -/
theorem handed_frame_preserved_on_growth (st : HeapStream) (jpeg : List Nat) (ns : Nat)
    (hid : st.frameId < st.store.length)
    (hgrow : (st.store.getD st.frameId []).length
      < jpeg.length + (headerBytes jpeg ns).length) :
    (heapUpdateFrame st jpeg ns).store.getD st.frameId []
      = st.store.getD st.frameId [] := by
  simp only [heapUpdateFrame, if_pos hgrow]
  simp [List.getD_eq_getElem?_getD, List.getElem?_append_left hid]

/-- C8 (witness): a publish into a too-small buffer leaves the old
buffer's bytes intact behind the old reference. -/
theorem handed_frame_preserved_on_growth_witness :
    (heapUpdateFrame ⟨[[]], 0⟩ [1] 0).store.getD 0 [] = ([[]] : List (List Nat)).getD 0 [] :=
  handed_frame_preserved_on_growth ⟨[[]], 0⟩ [1] 0 (by decide) (by decide)

/-- C9: the frame header depends only on the payload's length and the
elapsed duration, never on the payload's bytes. -/
theorem frameHeader_depends_only_on_length (j1 j2 : List Nat) (ns : Nat)
    (h : j1.length = j2.length) :
    frameHeader j1 ns = frameHeader j2 ns := by
  simp only [frameHeader, h]

/-- C9 (witness): two distinct two-byte payloads get the same header. -/
theorem frameHeader_depends_only_on_length_witness :
    frameHeader [1, 2] 0 = frameHeader [3, 4] 0 :=
  frameHeader_depends_only_on_length [1, 2] [3, 4] 0 (by decide)

/-- C10: starting from the buffer `NewStream` allocates, the frame
buffer's length never decreases across any sequence of publishes, and
after a non-empty publish it stays at least `len(header)+len(jpeg)` of
that publish for the rest of the run. -/
theorem frame_length_monotone (ops tail : List (List Nat × Nat)) (j : List Nat) (t : Nat) :
    (runPublishes ops newStream).frame.length
      ≤ (runPublishes (ops ++ (j, t) :: tail) newStream).frame.length
  ∧ (j ≠ [] →
      j.length + (headerBytes j (t - (runPublishes ops newStream).start.getD 0)).length
        ≤ (runPublishes (ops ++ (j, t) :: tail) newStream).frame.length) := by
  have hsplit : runPublishes (ops ++ (j, t) :: tail) newStream
      = runPublishes tail (updateJPEG (runPublishes ops newStream) j t) := by
    rw [runPublishes, List.foldl_append]
    rfl
  rw [hsplit]
  constructor
  · exact Nat.le_trans (updateJPEG_frame_length_mono _ j t)
      (runPublishes_frame_length_mono tail _)
  · intro hj
    exact Nat.le_trans (updateJPEG_frame_length_ge _ j t hj)
      (runPublishes_frame_length_mono tail _)

/-- C10 (witness): after the single publish of `[1]` at instant 0 the
buffer is at least `len(header)+len(jpeg)` long. -/
theorem frame_length_monotone_witness :
    ([1] : List Nat).length
        + (headerBytes [1] ((0 : Nat) - (runPublishes [] newStream).start.getD 0)).length
      ≤ (runPublishes ([] ++ ([1], 0) :: []) newStream).frame.length :=
  (frame_length_monotone [] [] [1] 0).2 (by decide)

end Mjpeg
